import Mathlib

/-!
# OpenAnalytics — verification of the tiered scoring engine and mentions pipeline

Shallow embedding of the core of the `openanalytics` repository:

* `shared/scoring.py` — the tiered AEO scoring engine
  (`evaluate_tier0_critical`, `evaluate_tier1_essential`,
  `evaluate_tier2_important`, `calculate_base_score`,
  `calculate_tiered_score`, `calculate_grade`, `calculate_visibility_band`);
* `stage health/stage_health.py` — the health-stage orchestrator
  (`run_stage_health`), with the website fetcher and the category check
  modules (external collaborators) supplied as parameters;
* `stage mentions/stage_mentions.py` — the mentions pipeline
  (`generate_hyperniche_queries`, `test_query_with_gemini`,
  `run_stage_mentions`), with the generative-text provider and Python's
  `json.loads` supplied as parameters.

Modelling conventions: Python dicts produced by the check functions are
records of optional fields (`dict.get` is `Option.getD`); Python floats are
modelled as exact rationals `ℚ`; `round(x, 1)` is rounding to one decimal
with ties to even (`pyRound1`); Python's substring operator `a in b` is
`pyIn`; string truthiness (`if s:`) is the test `s ≠ ""`.
-/

namespace OpenAnalytics

/-- Python's substring operator `a in b` (true when `a` occurs contiguously
inside `b`; the empty string is a substring of everything). -/
def pyIn (a b : String) : Bool := decide (a.toList <:+: b.toList)

/-- Python `str.lower()` (per-character lowering, as `String.toLower`). -/
def pyLower (s : String) : String := ⟨s.data.map Char.toLower⟩

/-- Python `str.strip()`: remove leading and trailing whitespace. -/
def pyStrip (s : String) : String :=
  ⟨((s.data.dropWhile Char.isWhitespace).reverse.dropWhile
      Char.isWhitespace).reverse⟩

/-- Python `str.startswith(p)`. -/
def pyStartsWith (s p : String) : Bool := p.data.isPrefixOf s.data

/-- Python `str.endswith(p)`. -/
def pyEndsWith (s p : String) : Bool := p.data.reverse.isPrefixOf s.data.reverse

/-- Python slicing `s[n:]` (by code points, as in Python). -/
def pyDrop (s : String) (n : Nat) : String := ⟨s.data.drop n⟩

/-- Python slicing `s[:-n]` for `n ≤ len(s)`. -/
def pyDropRight (s : String) (n : Nat) : String :=
  ⟨s.data.take (s.data.length - n)⟩

/-- Python slicing `s[:n]`. -/
def pyTake (s : String) (n : Nat) : String := ⟨s.data.take n⟩

/-- Python `len(s)` (code points). -/
def pyLen (s : String) : Nat := s.data.length

/-- One check-result dict as consumed by the scoring engine.  Every field is
optional because the engine reads it with `dict.get`; `score_impact` is a
natural number per the `CheckResult` contract (`shared/models.py`:
`score_impact: int = 5`, a nonnegative weight). -/
structure Check where
  check : Option String := none
  category : Option String := none
  passed : Option Bool := none
  severity : Option String := none
  message : Option String := none
  recommendation : Option String := none
  score_impact : Option Nat := none
deriving Repr, DecidableEq

/-- `scoring.py` line 40: the fixed set of AI-crawler-access identifiers. -/
def ai_crawler_checks : List String :=
  ["gptbot_access", "claude_access", "perplexitybot_access", "ccbot_access"]

/-- `issue.get('check') in ai_crawler_checks` (an absent key yields `None`,
which is never in the list). -/
def isCrawlerCheck (issue : Check) : Bool :=
  match issue.check with
  | some c => ai_crawler_checks.contains c
  | none => false

/-- Loop body of `evaluate_tier0_critical`: the issue is appended to
`blocked_crawlers` iff its identifier is a crawler check and it did not pass. -/
def isBlockedCrawler (issue : Check) : Bool :=
  isCrawlerCheck issue && !(issue.passed.getD false)

/-- `len(blocked_crawlers)` in `evaluate_tier0_critical`. -/
def blocked_crawlers (issues : List Check) : Nat :=
  issues.countP isBlockedCrawler

/-- The robots-meta condition of `evaluate_tier0_critical`: a `robots_meta`
check whose lowered message contains `noindex` and which did not pass. -/
def isNoindexFail (issue : Check) : Bool :=
  issue.check == some "robots_meta" &&
    pyIn "noindex" (pyLower (issue.message.getD "")) &&
    !(issue.passed.getD false)

/-- Tail of `evaluate_tier0_critical` as a function of the blocked-crawler
count and the robots-meta noindex test (the Python `for` loop that `return`s
on the first matching `robots_meta` issue succeeds iff some issue matches). -/
def tier0_of_flags (blocked : Nat) (noindex : Bool) : Bool × Int × String :=
  if 4 ≤ blocked then
    (false, 10, "Blocks all AI crawlers - invisible to AI")
  else if 3 ≤ blocked then
    (false, 25, "Blocks most AI crawlers (" ++ toString blocked ++ "/4)")
  else if noindex then
    (false, 5, "Has noindex - won\x27t be indexed by AI")
  else
    (true, 100, "AI can access site")

/-- `evaluate_tier0_critical` (`scoring.py` lines 30-59). -/
def evaluate_tier0_critical (issues : List Check) : Bool × Int × String :=
  tier0_of_flags (blocked_crawlers issues) (issues.any isNoindexFail)

/-- Tier-1 flag: some `org_schema_completeness` issue whose lowered message
does not contain "no organization schema". -/
def t1_has_org_schema (issues : List Check) : Bool :=
  issues.any fun i =>
    (i.check.getD "") == "org_schema_completeness" &&
      !(pyIn "no organization schema" (pyLower (i.message.getD "")))

/-- Tier-1 flag: some `title_tag` issue whose lowered message does not
contain "missing title". -/
def t1_has_title (issues : List Check) : Bool :=
  issues.any fun i =>
    (i.check.getD "") == "title_tag" &&
      !(pyIn "missing title" (pyLower (i.message.getD "")))

/-- Tier-1 flag: some `https` issue that passed. -/
def t1_has_https (issues : List Check) : Bool :=
  issues.any fun i => (i.check.getD "") == "https" && i.passed.getD false

/-- Tail of `evaluate_tier1_essential` as a function of the three flags. -/
def tier1_of_flags (has_org_schema has_title has_https : Bool) :
    Bool × Int × String :=
  let missing : List String :=
    (if !has_org_schema then ["Organization schema"] else []) ++
    (if !has_title then ["title tag"] else []) ++
    (if !has_https then ["HTTPS"] else [])
  if !has_org_schema then
    (false, 45, "Missing Organization schema - AI can\x27t identify entity")
  else if !missing.isEmpty then
    (false, 55, "Missing essentials: " ++ String.intercalate ", " missing)
  else
    (true, 100, "Has essential elements")

/-- `evaluate_tier1_essential` (`scoring.py` lines 62-105).  The Python loop
only ever raises each flag to `True`, so each flag is an existential over the
issue list. -/
def evaluate_tier1_essential (issues : List Check) : Bool × Int × String :=
  tier1_of_flags (t1_has_org_schema issues) (t1_has_title issues)
    (t1_has_https issues)

/-- Digits of a leading run, as a number — Python `int(match.group(1))`. -/
def digitsVal (cs : List Char) : Nat :=
  cs.foldl (fun n c => 10 * n + (c.toNat - '0'.toNat)) 0

/-- Leftmost match of the regex `(\d+)%`: the first maximal digit run that is
immediately followed by `'%'`, returned as its numeric value.  (A failed run
cannot contain the start of a later match ending at the same place, so
scanning position by position agrees with `re.search`.) -/
def firstPercent : List Char → Option Nat
  | [] => none
  | c :: rest =>
    if c.isDigit then
      let run := (c :: rest).takeWhile Char.isDigit
      match (c :: rest).dropWhile Char.isDigit with
      | '%' :: _ => some (digitsVal run)
      | _ => firstPercent rest
    else
      firstPercent rest

/-- `re.search(r'(\d+)%', message or '0%')` applied to the raw message. -/
def percentOf (message : String) : Option Nat :=
  firstPercent (if message == "" then "0%".toList else message.toList)

/-- Tier-2 flag `org_partial`: some `org_schema_completeness` issue whose
lowered message does not contain "no organization schema". -/
def t2_org_present (issues : List Check) : Bool :=
  issues.any fun i =>
    (i.check.getD "") == "org_schema_completeness" &&
      !(pyIn "no organization schema" (pyLower (i.message.getD "")))

/-- Tier-2 flag `org_complete`: additionally the regex-extracted completeness
percentage is at least 70. -/
def t2_org_complete (issues : List Check) : Bool :=
  issues.any fun i =>
    (i.check.getD "") == "org_schema_completeness" &&
      !(pyIn "no organization schema" (pyLower (i.message.getD ""))) &&
      (match percentOf (i.message.getD "") with
       | some completeness => decide (70 ≤ completeness)
       | none => false)

/-- Tier-2 flag: some `meta_description` issue whose lowered message does not
contain "missing". -/
def t2_has_meta_desc (issues : List Check) : Bool :=
  issues.any fun i =>
    (i.check.getD "") == "meta_description" &&
      !(pyIn "missing" (pyLower (i.message.getD "")))

/-- Tier-2 flag: some `content_word_count` issue that passed. -/
def t2_good_content (issues : List Check) : Bool :=
  issues.any fun i =>
    (i.check.getD "") == "content_word_count" && i.passed.getD false

/-- Tier-2 flag: some `sameas_links` issue that passed. -/
def t2_has_sameas (issues : List Check) : Bool :=
  issues.any fun i =>
    (i.check.getD "") == "sameas_links" && i.passed.getD false

/-- Tail of `evaluate_tier2_important` as a function of the five flags.
`critical_issues` is the empty list in the source (nothing is ever appended
to it), so the 70-cap branch is unreachable but kept for fidelity. -/
def tier2_of_flags (org_present org_complete has_meta_desc good_content
    has_sameas : Bool) : Bool × Int × String :=
  let critical_issues : List String := []
  let important_issues : List String :=
    (if org_present && !org_complete then ["incomplete Organization schema"]
     else []) ++
    (if !has_sameas then ["no sameAs links"] else [])
  let minor_issues : List String :=
    (if !has_meta_desc then ["no meta description"] else []) ++
    (if !good_content then ["thin content"] else [])
  if 0 < critical_issues.length then
    (false, 70, "Critical: " ++ String.intercalate ", " critical_issues)
  else if 2 ≤ important_issues.length then
    (false, 75, "Issues: " ++ String.intercalate ", " important_issues)
  else if important_issues.length == 1 then
    (false, 85, "Issue: " ++ important_issues.headD "")
  else if 2 ≤ minor_issues.length then
    (false, 90, "Minor issues: " ++ String.intercalate ", " minor_issues)
  else if minor_issues.length == 1 then
    (false, 95, "Minor: " ++ minor_issues.headD "")
  else
    (true, 100, "Excellent AEO optimization")

/-- `evaluate_tier2_important` (`scoring.py` lines 108-174). -/
def evaluate_tier2_important (issues : List Check) : Bool × Int × String :=
  tier2_of_flags (t2_org_present issues) (t2_org_complete issues)
    (t2_has_meta_desc issues) (t2_good_content issues) (t2_has_sameas issues)

/-- `issue.get('score_impact', 5)` as an exact rational. -/
def check_impact (issue : Check) : ℚ := (issue.score_impact.getD 5 : Nat)

/-- Contribution of one issue to `earned_impact` in `calculate_base_score`:
full impact when passed, 0.7 of it for a failing `notice`, 0.3 for a failing
`warning`, 0 otherwise. -/
def earned_impact_of (issue : Check) : ℚ :=
  if issue.passed.getD false then check_impact issue
  else if issue.severity == some "notice" then check_impact issue * (7 / 10)
  else if issue.severity == some "warning" then check_impact issue * (3 / 10)
  else 0

/-- `calculate_base_score` (`scoring.py` lines 177-198). -/
def calculate_base_score (issues : List Check) : ℚ :=
  let total_impact := (issues.map check_impact).sum
  let earned_impact := (issues.map earned_impact_of).sum
  if 0 < total_impact then earned_impact / total_impact * 100 else 0

/-- Rounding to the nearest integer with ties to even (the behaviour of
Python's `round` on the exact values the engine produces). -/
def pyRoundInt (x : ℚ) : Int :=
  if Int.fract x < 1 / 2 then ⌊x⌋
  else if 1 / 2 < Int.fract x then ⌊x⌋ + 1
  else if ⌊x⌋ % 2 = 0 then ⌊x⌋ else ⌊x⌋ + 1

/-- Python `round(x, 1)`. -/
def pyRound1 (x : ℚ) : ℚ := (pyRoundInt (10 * x) : ℚ) / 10

/-- The `{'passed': ..., 'cap': ..., 'reason': ...}` dict of one tier inside
`tier_details`. -/
structure TierInfo where
  passed : Bool
  cap : Int
  reason : String
deriving Repr, DecidableEq

/-- The `tier_details` dict returned by `calculate_tiered_score`. -/
structure TierDetails where
  tier0 : TierInfo
  tier1 : TierInfo
  tier2 : TierInfo
  base_score : ℚ
  limiting_tier : String
  limiting_reason : String
deriving Repr, DecidableEq

/-- `calculate_tiered_score` (`scoring.py` lines 201-243). -/
def calculate_tiered_score (issues : List Check) : ℚ × TierDetails :=
  let t0 := evaluate_tier0_critical issues
  let t1 := evaluate_tier1_essential issues
  let t2 := evaluate_tier2_important issues
  let base_score := calculate_base_score issues
  let final_score : ℚ :=
    min (min (min (t0.2.1 : ℚ) (t1.2.1 : ℚ)) (t2.2.1 : ℚ)) base_score
  let limiting : String × String :=
    if (t0.2.1 : ℚ) ≤ final_score + 1 then ("tier0", t0.2.2)
    else if (t1.2.1 : ℚ) ≤ final_score + 1 then ("tier1", t1.2.2)
    else if (t2.2.1 : ℚ) ≤ final_score + 1 then ("tier2", t2.2.2)
    else ("base", "Check performance")
  (pyRound1 final_score,
   { tier0 := ⟨t0.1, t0.2.1, t0.2.2⟩
     tier1 := ⟨t1.1, t1.2.1, t1.2.2⟩
     tier2 := ⟨t2.1, t2.2.1, t2.2.2⟩
     base_score := pyRound1 base_score
     limiting_tier := limiting.1
     limiting_reason := limiting.2 })

/-- `calculate_grade` (`scoring.py`). -/
def calculate_grade (score : ℚ) : String :=
  if 90 ≤ score then "A+"
  else if 80 ≤ score then "A"
  else if 65 ≤ score then "B"
  else if 45 ≤ score then "C"
  else if 25 ≤ score then "D"
  else "F"

/-- `calculate_visibility_band` (`scoring.py`): band name and hex colour. -/
def calculate_visibility_band (score : ℚ) : String × String :=
  if 80 ≤ score then ("Excellent", "#22c55e")
  else if 65 ≤ score then ("Strong", "#84cc16")
  else if 45 ≤ score then ("Moderate", "#eab308")
  else if 25 ≤ score then ("Weak", "#f97316")
  else ("Critical", "#ef4444")

/-! ## Health stage (`stage health/stage_health.py`) -/

/-- `FetchResult` (`shared/models.py`): what the website-fetching collaborator
returns. -/
structure FetchResult where
  html : Option String := none
  final_url : String
  robots_txt : Option String := none
  sitemap_found : Bool := false
  html_response_time_ms : Int := 0
  total_fetch_time_ms : Int := 0
  status_code : Int := 0
  js_rendered : Bool := false
  error : Option String := none
deriving Repr, DecidableEq

/-- `HealthStageOutput` (`stage health/health_models.py`), without the
wall-clock `execution_time` field (real time is outside the embedding). -/
structure HealthStageOutput where
  url : String
  score : ℚ
  max_score : ℚ := 100
  grade : String
  band : String
  band_color : String
  checks_passed : Nat
  checks_failed : Nat
  issues : List Check
  tier_details : TierDetails
  fetch_time_ms : Int
  js_rendered : Bool := false
deriving Repr, DecidableEq

/-- `run_stage_health` (`stage health/stage_health.py`).  The fetch
collaborator's result is the first argument; the combined output of the four
category check modules (`checks.technical`, `checks.structured_data`,
`checks.aeo_crawler`, `checks.authority` — external collaborators run only
when the fetch succeeds) is the second.  Python's `if fetch_result.error:` is
truthiness, i.e. a present, non-empty error string. -/
def run_stage_health (fetch_result : FetchResult) (all_results : List Check) :
    HealthStageOutput :=
  if fetch_result.error.getD "" != "" then
    { url := fetch_result.final_url
      score := 0
      grade := "F"
      band := "Critical"
      band_color := "#ef4444"
      checks_passed := 0
      checks_failed := 29
      issues := [{ check := some "fetch"
                   category := some "critical"
                   passed := some false
                   severity := some "error"
                   message := fetch_result.error
                   recommendation :=
                     some "Ensure the URL is accessible and not blocking requests" }]
      tier_details := { tier0 := ⟨false, 0, fetch_result.error.getD ""⟩
                        tier1 := ⟨false, 0, "Could not fetch"⟩
                        tier2 := ⟨false, 0, "Could not fetch"⟩
                        base_score := 0
                        limiting_tier := "tier0"
                        limiting_reason := fetch_result.error.getD "" }
      fetch_time_ms := fetch_result.total_fetch_time_ms
      js_rendered := fetch_result.js_rendered }
  else
    let result := calculate_tiered_score all_results
    let passed := all_results.countP fun r => r.passed == some true
    { url := fetch_result.final_url
      score := result.1
      grade := calculate_grade result.1
      band := (calculate_visibility_band result.1).1
      band_color := (calculate_visibility_band result.1).2
      checks_passed := passed
      checks_failed := all_results.length - passed
      issues := all_results.filter fun r => r.passed != some true
      tier_details := result.2
      fetch_time_ms := fetch_result.html_response_time_ms
      js_rendered := fetch_result.js_rendered }

/-! ## Mentions stage (`stage mentions/stage_mentions.py`) -/

/-- One `{query, dimension}` dict from the query generator. -/
structure GeneratedQuery where
  query : String
  dimension : String
deriving Repr, DecidableEq

/-- Outcome of one call to the generative-text provider
(`client.query_with_structured_output`): either the call raises, or it
returns a dict whose `success` flag and `response` text the caller reads. -/
inductive ProviderResult where
  | raises (msg : String)
  | returns (success : Bool) (response : Option String)
deriving Repr, DecidableEq

/-- The Markdown code-fence stripping in `generate_hyperniche_queries`:
`strip`, then drop a leading ```` ```json ````, a leading ```` ``` ```` and
a trailing ```` ``` ````, then `strip` again. -/
def stripCodeFences (raw : String) : String :=
  let text := pyStrip raw
  let text := if pyStartsWith text "```json" then pyDrop text 7 else text
  let text := if pyStartsWith text "```" then pyDrop text 3 else text
  let text := if pyEndsWith text "```" then pyDropRight text 3 else text
  pyStrip text

/-- The deterministic fallback list of `generate_hyperniche_queries`
(`stage_mentions.py` lines 86-91), built from the literal profile fields and
truncated to `num_queries`. -/
def fallback_queries (company_name : String) (industry : Option String)
    (products : Option (List String)) (num_queries : Nat) :
    List GeneratedQuery :=
  [{ query := "best " ++
        (match products with
         | some (p :: _) => p
         | _ => "solution") ++ " for " ++
        (match industry with
         | some ind => if ind == "" then "companies" else ind
         | none => "companies")
     dimension := "Product-Industry" },
   { query := company_name ++ " alternatives", dimension := "Competitive" },
   { query := company_name, dimension := "Branded" }].take num_queries

/-- `generate_hyperniche_queries` (`stage_mentions.py` lines 25-92).
`parse_json` parameterizes Python's `json.loads` on the fence-stripped text:
`some qs` when it yields a list of query dicts, `none` when it raises or
yields a non-list value (slicing a non-list raises, and every exception in
the `try` block is caught by the fallback).  `provider` is the outcome of the
single provider call. -/
def generate_hyperniche_queries
    (parse_json : String → Option (List GeneratedQuery))
    (company_name : String) (industry : Option String)
    (products : Option (List String)) (num_queries : Nat)
    (provider : ProviderResult) : List GeneratedQuery :=
  match provider with
  | .raises _ => fallback_queries company_name industry products num_queries
  | .returns success response =>
    if success && (response.getD "" != "") then
      match parse_json (stripCodeFences (response.getD "")) with
      | some queries => queries.take num_queries
      | none => fallback_queries company_name industry products num_queries
    else
      fallback_queries company_name industry products num_queries

/-- `QueryResult` (`stage mentions/mentions_models.py`), with its pydantic
defaults. -/
structure QueryResult where
  query : String
  dimension : String := ""
  has_response : Bool := false
  company_mentioned : Bool := false
  response_length : Nat := 0
  response_preview : String := ""
  error : Option String := none
deriving Repr, DecidableEq

/-- `test_query_with_gemini` (`stage_mentions.py` lines 95-122). -/
def test_query_with_gemini (query company_name : String)
    (provider : ProviderResult) : QueryResult :=
  match provider with
  | .raises e =>
    { query := query, has_response := false, company_mentioned := false,
      error := some e }
  | .returns success response =>
    if success && (response.getD "" != "") then
      let text := response.getD ""
      { query := query
        has_response := true
        company_mentioned := pyIn (pyLower company_name) (pyLower text)
        response_length := pyLen text
        response_preview := if text != "" then pyTake text 200 else "" }
    else
      { query := query, has_response := false, company_mentioned := false }

/-- `MentionsStageInput` (`stage mentions/mentions_models.py`). -/
structure MentionsStageInput where
  company_name : String
  industry : Option String := none
  products : Option (List String) := none
  target_audience : Option String := none
  num_queries : Nat := 10
deriving Repr, DecidableEq

/-- The aggregation block of `run_stage_mentions` (`stage_mentions.py` lines
170-180): responses, mentions, presence rate, mention rate (the published
`visibility`) and quality score computed from the probe results. -/
structure VisibilityMetrics where
  total_responses : Nat
  total_mentions : Nat
  presence_rate : ℚ
  mention_rate : ℚ
  quality_score : ℚ
deriving Repr, DecidableEq

/-- The metric arithmetic of `run_stage_mentions`, as a pure function of the
probe results. -/
def mentions_metrics (results : List QueryResult) : VisibilityMetrics :=
  let total_responses := results.countP fun r => r.has_response
  let total_mentions := results.countP fun r => r.company_mentioned
  let presence_rate : ℚ :=
    if !results.isEmpty then (total_responses : ℚ) / results.length * 100
    else 0
  let mention_rate : ℚ :=
    if !results.isEmpty then (total_mentions : ℚ) / results.length * 100
    else 0
  { total_responses := total_responses
    total_mentions := total_mentions
    presence_rate := presence_rate
    mention_rate := mention_rate
    quality_score := min 10 (mention_rate / 10) }

/-- `MentionsStageOutput` (`stage mentions/mentions_models.py`), without the
wall-clock `execution_time` field. -/
structure MentionsStageOutput where
  company_name : String
  queries_generated : List GeneratedQuery
  query_results : List QueryResult
  visibility : ℚ
  mentions : Nat
  presence_rate : ℚ
  quality_score : ℚ
  ai_calls : Nat
deriving Repr, DecidableEq

/-- `run_stage_mentions` (`stage_mentions.py` lines 125-188).  The provider
outcomes are parameters: `gen_provider` for the query-generation call and
`probe_provider` for each per-query probe (the `asyncio.gather` reassembles
probe results in query order, so the output list maps positionally over the
generated queries). -/
def run_stage_mentions (parse_json : String → Option (List GeneratedQuery))
    (gen_provider : ProviderResult) (probe_provider : String → ProviderResult)
    (input_data : MentionsStageInput) : MentionsStageOutput :=
  let queries := generate_hyperniche_queries parse_json
    input_data.company_name input_data.industry input_data.products
    input_data.num_queries gen_provider
  let results := queries.map fun q =>
    test_query_with_gemini q.query input_data.company_name
      (probe_provider q.query)
  let m := mentions_metrics results
  { company_name := input_data.company_name
    queries_generated := queries
    query_results := results
    visibility := m.mention_rate
    mentions := m.total_mentions
    presence_rate := m.presence_rate
    quality_score := m.quality_score
    ai_calls := 1 + results.length }

/-! ## Rounding lemmas -/

theorem pyRoundInt_intCast (n : Int) : pyRoundInt (n : ℚ) = n := by
  simp [pyRoundInt, Int.fract_intCast, Int.floor_intCast]

theorem floor_le_pyRoundInt (x : ℚ) : ⌊x⌋ ≤ pyRoundInt x := by
  unfold pyRoundInt
  split_ifs <;> omega

theorem pyRoundInt_le_floor_add_one (x : ℚ) : pyRoundInt x ≤ ⌊x⌋ + 1 := by
  unfold pyRoundInt
  split_ifs <;> omega

theorem pyRoundInt_le_of_le {x : ℚ} {m : Int} (h : x ≤ (m : ℚ)) :
    pyRoundInt x ≤ m := by
  have hfl : ⌊x⌋ ≤ m := by
    have := Int.floor_mono h
    simpa using this
  rcases eq_or_lt_of_le hfl with heq | hlt
  · have hx : x = (m : ℚ) := le_antisymm h (by
      calc (m : ℚ) = (⌊x⌋ : ℚ) := by exact_mod_cast heq.symm
        _ ≤ x := Int.floor_le x)
    rw [hx, pyRoundInt_intCast]
  · have := pyRoundInt_le_floor_add_one x
    omega

theorem le_pyRoundInt_of_le {x : ℚ} {m : Int} (h : (m : ℚ) ≤ x) :
    m ≤ pyRoundInt x := by
  have hfl : m ≤ ⌊x⌋ := Int.le_floor.mpr h
  have := floor_le_pyRoundInt x
  omega

theorem pyRoundInt_mono {x y : ℚ} (h : x ≤ y) : pyRoundInt x ≤ pyRoundInt y := by
  have hf : ⌊x⌋ ≤ ⌊y⌋ := Int.floor_mono h
  rcases eq_or_lt_of_le hf with heq | hlt
  · have hfr : Int.fract x ≤ Int.fract y := by
      unfold Int.fract
      rw [heq]
      linarith
    unfold pyRoundInt
    split_ifs <;> first | omega | linarith
  · have h1 := pyRoundInt_le_floor_add_one x
    have h2 := floor_le_pyRoundInt y
    omega

theorem pyRound1_intCast (n : Int) : pyRound1 (n : ℚ) = n := by
  unfold pyRound1
  rw [show (10 : ℚ) * n = ((10 * n : Int) : ℚ) by push_cast; ring]
  rw [pyRoundInt_intCast]
  push_cast
  ring

theorem pyRound1_le_intCast {x : ℚ} {m : Int} (h : x ≤ (m : ℚ)) :
    pyRound1 x ≤ m := by
  have h10 : 10 * x ≤ ((10 * m : Int) : ℚ) := by push_cast; linarith
  have := pyRoundInt_le_of_le h10
  unfold pyRound1
  rw [div_le_iff₀ (by norm_num : (0 : ℚ) < 10)]
  calc (pyRoundInt (10 * x) : ℚ) ≤ ((10 * m : Int) : ℚ) := by exact_mod_cast this
    _ = (m : ℚ) * 10 := by push_cast; ring

theorem intCast_le_pyRound1 {x : ℚ} {m : Int} (h : (m : ℚ) ≤ x) :
    (m : ℚ) ≤ pyRound1 x := by
  have h10 : ((10 * m : Int) : ℚ) ≤ 10 * x := by push_cast; linarith
  have := le_pyRoundInt_of_le h10
  unfold pyRound1
  rw [le_div_iff₀ (by norm_num : (0 : ℚ) < 10)]
  calc (m : ℚ) * 10 = ((10 * m : Int) : ℚ) := by push_cast; ring
    _ ≤ (pyRoundInt (10 * x) : ℚ) := by exact_mod_cast this

theorem pyRound1_mono {x y : ℚ} (h : x ≤ y) : pyRound1 x ≤ pyRound1 y := by
  unfold pyRound1
  have : pyRoundInt (10 * x) ≤ pyRoundInt (10 * y) :=
    pyRoundInt_mono (by linarith)
  have hc : (pyRoundInt (10 * x) : ℚ) ≤ (pyRoundInt (10 * y) : ℚ) := by
    exact_mod_cast this
  linarith

/-- Rounding to one decimal commutes with capping by an integer. -/
theorem pyRound1_min_intCast (c : Int) (b : ℚ) :
    pyRound1 (min (c : ℚ) b) = min (c : ℚ) (pyRound1 b) := by
  rcases le_total ((c : ℚ)) b with h | h
  · rw [min_eq_left h, pyRound1_intCast, min_eq_left (intCast_le_pyRound1 h)]
  · rw [min_eq_right h, min_eq_right (pyRound1_le_intCast h)]

/-! ## C1 — the final score is the minimum of the three caps and the base
score -/

/-- C1: for every list of check dicts, the final score returned by
`calculate_tiered_score` equals the minimum of `tier0.cap`, `tier1.cap`,
`tier2.cap` and `base_score` as reported in `tier_details` (the reported base
score being rounded to one decimal), and in particular the final score is at
most each of the three caps: no combination of passing checks can push the
score above any cap. -/
theorem final_score_eq_min_caps_base (issues : List Check) :
    (calculate_tiered_score issues).1
      = min (min (((calculate_tiered_score issues).2.tier0.cap : ℚ))
              ((calculate_tiered_score issues).2.tier1.cap : ℚ))
          (min ((calculate_tiered_score issues).2.tier2.cap : ℚ)
            (calculate_tiered_score issues).2.base_score)
    ∧ (calculate_tiered_score issues).1
        ≤ ((calculate_tiered_score issues).2.tier0.cap : ℚ)
    ∧ (calculate_tiered_score issues).1
        ≤ ((calculate_tiered_score issues).2.tier1.cap : ℚ)
    ∧ (calculate_tiered_score issues).1
        ≤ ((calculate_tiered_score issues).2.tier2.cap : ℚ) := by
  simp only [calculate_tiered_score]
  have key :
      pyRound1 (min (min (min ((evaluate_tier0_critical issues).2.1 : ℚ)
            ((evaluate_tier1_essential issues).2.1 : ℚ))
            ((evaluate_tier2_important issues).2.1 : ℚ))
          (calculate_base_score issues))
        = min (min ((evaluate_tier0_critical issues).2.1 : ℚ)
            ((evaluate_tier1_essential issues).2.1 : ℚ))
          (min ((evaluate_tier2_important issues).2.1 : ℚ)
            (pyRound1 (calculate_base_score issues))) := by
    rw [← Int.cast_min, ← Int.cast_min, pyRound1_min_intCast, Int.cast_min,
      Int.cast_min, min_assoc]
  refine ⟨key, ?_, ?_, ?_⟩
  · rw [key]
    exact le_trans (min_le_left _ _) (min_le_left _ _)
  · rw [key]
    exact le_trans (min_le_left _ _) (min_le_right _ _)
  · rw [key]
    exact le_trans (min_le_right _ _) (min_le_left _ _)

/-! ## Concrete check fixtures used by counterexamples and witnesses -/

/-- A failing check dict with the default-style fields a category check
emits. -/
def failing_check (name : String) : Check :=
  { check := some name, passed := some false, severity := some "error",
    message := some (name ++ " failed"), score_impact := some 5 }

/-- A passing check dict. -/
def passing_check (name msg : String) : Check :=
  { check := some name, passed := some true, severity := some "pass",
    message := some msg, score_impact := some 5 }

/-- A failing `robots_meta` check whose message contains "noindex". -/
def noindex_fail_check : Check :=
  { check := some "robots_meta", passed := some false,
    severity := some "error", message := some "Has noindex directive",
    score_impact := some 5 }

/-- Perfect results for the non-crawler checks consulted by the tiers. -/
def perfect_rest : List Check :=
  [passing_check "robots_meta" "Meta robots ok",
   passing_check "org_schema_completeness" "Organization schema 90% complete",
   passing_check "title_tag" "Title tag found",
   passing_check "https" "HTTPS enabled",
   passing_check "meta_description" "Meta description present",
   passing_check "content_word_count" "Good content length",
   passing_check "sameas_links" "sameAs links found"]

/-! ## C2 — the noindex cap is not independent of the crawler count -/

/-- C2 counterexample: an input that contains a failing `robots_meta` check
whose message contains "noindex", together with three failing crawler checks;
tier 0 returns cap 25 (the crawler branch), not 5 — the noindex condition is
only consulted when fewer than three crawler checks fail, so it is not
evaluated independently of the crawler count. -/
theorem tier0_noindex_not_independent_cex :
    (([failing_check "gptbot_access", failing_check "claude_access",
       failing_check "perplexitybot_access",
       noindex_fail_check] : List Check).any isNoindexFail) = true ∧
    (evaluate_tier0_critical
      [failing_check "gptbot_access", failing_check "claude_access",
       failing_check "perplexitybot_access", noindex_fail_check]).2.1 = 25 := by
  decide

/-- C2 (amended): if the input contains a failing `robots_meta` check whose
message contains "noindex" AND fewer than three AI-crawler checks are
failing, tier 0 yields cap 5; with three or more failing crawler checks the
crawler branch returns first (cap 25 or 10) and the noindex condition is
never consulted. -/
theorem tier0_noindex_cap_five (issues : List Check)
    (hnoidx : issues.any isNoindexFail = true)
    (hcount : blocked_crawlers issues < 3) :
    (evaluate_tier0_critical issues).2.1 = 5 := by
  unfold evaluate_tier0_critical tier0_of_flags
  rw [if_neg (by omega), if_neg (by omega), if_pos hnoidx]

/-- Witness for `tier0_noindex_cap_five` at a concrete input. -/
theorem tier0_noindex_cap_five_witness :
    (evaluate_tier0_critical [noindex_fail_check]).2.1 = 5 :=
  tier0_noindex_cap_five [noindex_fail_check] (by decide) (by decide)

/-! ## C3 — the all-crawlers-blocked scenario -/

/-- The spec's scenario input: the four named crawler checks (including
`claudebot_access`) all failing, plus otherwise-perfect remaining checks. -/
def c3_spec_input : List Check :=
  [failing_check "gptbot_access", failing_check "claudebot_access",
   failing_check "perplexitybot_access", failing_check "ccbot_access"] ++
    perfect_rest

/-- The same scenario with the identifier the engine actually recognises
(`claude_access`, `scoring.py` line 40) in place of `claudebot_access`. -/
def c3_code_input : List Check :=
  [failing_check "gptbot_access", failing_check "claude_access",
   failing_check "perplexitybot_access", failing_check "ccbot_access"] ++
    perfect_rest

/-- C3 counterexample: on the spec's literal input — whose four crawler
checks are named `gptbot_access`, `claudebot_access`, `perplexitybot_access`,
`ccbot_access` — the engine counts only three blocked crawlers, because its
fixed identifier list contains `claude_access`, not `claudebot_access`.  The
result is tier0 cap 25, final score 25, grade "D", band "Weak" — not the
claimed cap 10 / score 10 / "F" / "Critical". -/
theorem all_crawlers_blocked_spec_input_cex :
    (calculate_tiered_score c3_spec_input).2.tier0.cap = 25 ∧
    (calculate_tiered_score c3_spec_input).1 = 25 ∧
    calculate_grade (calculate_tiered_score c3_spec_input).1 = "D" ∧
    (calculate_visibility_band (calculate_tiered_score c3_spec_input).1).1
      = "Weak" ∧
    (calculate_tiered_score c3_spec_input).2.limiting_tier = "tier0" := by
  have h0 : (evaluate_tier0_critical c3_spec_input).2.1 = 25 := by decide
  have h1 : (evaluate_tier1_essential c3_spec_input).2.1 = 100 := by decide
  have h2 : (evaluate_tier2_important c3_spec_input).2.1 = 100 := by decide
  have hb : calculate_base_score c3_spec_input = 700 / 11 := by
    simp +decide only [calculate_base_score, check_impact, earned_impact_of,
      c3_spec_input, perfect_rest, failing_check, passing_check,
      List.map_cons, List.map_nil, List.sum_cons, List.sum_nil,
      List.cons_append, List.nil_append, Option.getD_some]
    norm_num
  have hmin : min (min (min ((evaluate_tier0_critical c3_spec_input).2.1 : ℚ)
      ((evaluate_tier1_essential c3_spec_input).2.1 : ℚ))
      ((evaluate_tier2_important c3_spec_input).2.1 : ℚ))
      (calculate_base_score c3_spec_input) = 25 := by
    rw [h0, h1, h2, hb]; norm_num
  have hscore : (calculate_tiered_score c3_spec_input).1 = 25 := by
    simp only [calculate_tiered_score]
    rw [hmin]
    exact_mod_cast pyRound1_intCast 25
  refine ⟨?_, hscore, ?_, ?_, ?_⟩
  · simp only [calculate_tiered_score]
    exact h0
  · rw [hscore]; norm_num [calculate_grade]
  · rw [hscore]; norm_num [calculate_visibility_band]
  · simp only [calculate_tiered_score]
    rw [hmin, h0]
    norm_num

/-- C3 (amended): with the four crawler identifiers the engine recognises —
`gptbot_access`, `claude_access`, `perplexitybot_access`, `ccbot_access` —
all failing plus otherwise-perfect remaining checks, the engine produces
tier0 cap 10, final score 10, grade "F", band "Critical" and limiting tier
"tier0". -/
theorem all_crawlers_blocked_code_input :
    (calculate_tiered_score c3_code_input).2.tier0.cap = 10 ∧
    (calculate_tiered_score c3_code_input).1 = 10 ∧
    calculate_grade (calculate_tiered_score c3_code_input).1 = "F" ∧
    (calculate_visibility_band (calculate_tiered_score c3_code_input).1).1
      = "Critical" ∧
    (calculate_tiered_score c3_code_input).2.limiting_tier = "tier0" := by
  have h0 : (evaluate_tier0_critical c3_code_input).2.1 = 10 := by decide
  have h1 : (evaluate_tier1_essential c3_code_input).2.1 = 100 := by decide
  have h2 : (evaluate_tier2_important c3_code_input).2.1 = 100 := by decide
  have hb : calculate_base_score c3_code_input = 700 / 11 := by
    simp +decide only [calculate_base_score, check_impact, earned_impact_of,
      c3_code_input, perfect_rest, failing_check, passing_check,
      List.map_cons, List.map_nil, List.sum_cons, List.sum_nil,
      List.cons_append, List.nil_append, Option.getD_some]
    norm_num
  have hmin : min (min (min ((evaluate_tier0_critical c3_code_input).2.1 : ℚ)
      ((evaluate_tier1_essential c3_code_input).2.1 : ℚ))
      ((evaluate_tier2_important c3_code_input).2.1 : ℚ))
      (calculate_base_score c3_code_input) = 10 := by
    rw [h0, h1, h2, hb]; norm_num
  have hscore : (calculate_tiered_score c3_code_input).1 = 10 := by
    simp only [calculate_tiered_score]
    rw [hmin]
    exact_mod_cast pyRound1_intCast 10
  refine ⟨?_, hscore, ?_, ?_, ?_⟩
  · simp only [calculate_tiered_score]
    exact h0
  · rw [hscore]; norm_num [calculate_grade]
  · rw [hscore]; norm_num [calculate_visibility_band]
  · simp only [calculate_tiered_score]
    rw [hmin, h0]
    norm_num

/-! ## C4 — absent checks do not uniformly default to "issue present" -/

/-- C4 counterexample: on the empty input list — every expected identifier
absent — tier 0 returns `passed = true` with the maximal cap 100, whereas
treating the absent crawler checks as "issue present" would give cap 10 (the
value it returns when the four crawler checks are explicitly failing).  So
tier 0 defaults absent checks toward a HIGHER cap, not a lower one. -/
theorem tier0_absent_defaults_to_pass_cex :
    evaluate_tier0_critical [] = (true, 100, "AI can access site") ∧
    (evaluate_tier0_critical
      [failing_check "gptbot_access", failing_check "claude_access",
       failing_check "perplexitybot_access",
       failing_check "ccbot_access"]).2.1 = 10 := by
  decide

/-- C4 (amended): the engine is total (never raises), and the tiers default
differently when an expected identifier is absent: tier 1 treats absent
essentials as missing (no `org_schema_completeness` entry → cap 45) and
tier 2 treats absent sameAs/meta-description/content checks as issues
present (none of its four identifiers present → cap 85), but tier 0 treats
absent crawler and robots-meta checks as passing (cap 100, `passed = true`). -/
theorem tier_absent_check_defaults (issues : List Check) :
    ((∀ i ∈ issues, isCrawlerCheck i = false) →
      (∀ i ∈ issues, i.check ≠ some "robots_meta") →
      evaluate_tier0_critical issues = (true, 100, "AI can access site")) ∧
    ((∀ i ∈ issues, i.check.getD "" ≠ "org_schema_completeness") →
      (evaluate_tier1_essential issues).2.1 = 45) ∧
    ((∀ i ∈ issues,
        i.check.getD "" ≠ "org_schema_completeness" ∧
        i.check.getD "" ≠ "meta_description" ∧
        i.check.getD "" ≠ "content_word_count" ∧
        i.check.getD "" ≠ "sameas_links") →
      (evaluate_tier2_important issues).2.1 = 85) := by
  refine ⟨fun hc hr => ?_, fun h1 => ?_, fun h2 => ?_⟩
  · have hcount : blocked_crawlers issues = 0 := by
      rw [blocked_crawlers, List.countP_eq_zero]
      intro i hi
      simp [isBlockedCrawler, hc i hi]
    have hnoidx : issues.any isNoindexFail = false := by
      rw [List.any_eq_false]
      intro i hi
      simp [isNoindexFail, hr i hi]
    rw [evaluate_tier0_critical, hcount, hnoidx]
    decide
  · have horg : t1_has_org_schema issues = false := by
      rw [t1_has_org_schema, List.any_eq_false]
      intro i hi
      simp [h1 i hi]
    rw [evaluate_tier1_essential, horg, tier1_of_flags]
    simp
  · have ho : t2_org_present issues = false := by
      rw [t2_org_present, List.any_eq_false]
      intro i hi
      simp [(h2 i hi).1]
    have hoc : t2_org_complete issues = false := by
      rw [t2_org_complete, List.any_eq_false]
      intro i hi
      simp [(h2 i hi).1]
    have hm : t2_has_meta_desc issues = false := by
      rw [t2_has_meta_desc, List.any_eq_false]
      intro i hi
      simp [(h2 i hi).2.1]
    have hg : t2_good_content issues = false := by
      rw [t2_good_content, List.any_eq_false]
      intro i hi
      simp [(h2 i hi).2.2.1]
    have hs : t2_has_sameas issues = false := by
      rw [t2_has_sameas, List.any_eq_false]
      intro i hi
      simp [(h2 i hi).2.2.2]
    rw [evaluate_tier2_important, ho, hoc, hm, hg, hs]
    decide

/-- Witness for `tier_absent_check_defaults` at the empty input list. -/
theorem tier_absent_check_defaults_witness :
    evaluate_tier0_critical [] = (true, 100, "AI can access site") ∧
    (evaluate_tier1_essential []).2.1 = 45 ∧
    (evaluate_tier2_important []).2.1 = 85 :=
  ⟨(tier_absent_check_defaults []).1 (by simp) (by simp),
   (tier_absent_check_defaults []).2.1 (by simp),
   (tier_absent_check_defaults []).2.2 (by simp)⟩

/-! ## C6 — fetch-failure short-circuit in the health stage -/

/-- C6: whenever the fetch result carries a (truthy, i.e. non-empty) error,
`run_stage_health` bypasses the scoring engine and returns score 0, grade
"F", band "Critical", 0 checks passed, 29 checks failed, and an issues list
holding exactly one synthetic `fetch` check describing the fetch error —
whatever the category check results would have been. -/
theorem run_stage_health_fetch_error (fetch_result : FetchResult)
    (all_results : List Check) (e : String)
    (he : fetch_result.error = some e) (hne : e ≠ "") :
    run_stage_health fetch_result all_results =
      { url := fetch_result.final_url
        score := 0
        grade := "F"
        band := "Critical"
        band_color := "#ef4444"
        checks_passed := 0
        checks_failed := 29
        issues := [{ check := some "fetch"
                     category := some "critical"
                     passed := some false
                     severity := some "error"
                     message := some e
                     recommendation :=
                       some "Ensure the URL is accessible and not blocking requests" }]
        tier_details := { tier0 := ⟨false, 0, e⟩
                          tier1 := ⟨false, 0, "Could not fetch"⟩
                          tier2 := ⟨false, 0, "Could not fetch"⟩
                          base_score := 0
                          limiting_tier := "tier0"
                          limiting_reason := e }
        fetch_time_ms := fetch_result.total_fetch_time_ms
        js_rendered := fetch_result.js_rendered } := by
  rw [run_stage_health, he]
  rw [if_pos (by simpa using hne)]
  simp

/-- Witness for `run_stage_health_fetch_error`: a concrete refused fetch,
with category results that would otherwise have scored well. -/
theorem run_stage_health_fetch_error_witness :
    run_stage_health
      { final_url := "https://example.com", total_fetch_time_ms := 123,
        error := some "Connection refused" } perfect_rest =
      { url := "https://example.com"
        score := 0
        grade := "F"
        band := "Critical"
        band_color := "#ef4444"
        checks_passed := 0
        checks_failed := 29
        issues := [{ check := some "fetch"
                     category := some "critical"
                     passed := some false
                     severity := some "error"
                     message := some "Connection refused"
                     recommendation :=
                       some "Ensure the URL is accessible and not blocking requests" }]
        tier_details := { tier0 := ⟨false, 0, "Connection refused"⟩
                          tier1 := ⟨false, 0, "Could not fetch"⟩
                          tier2 := ⟨false, 0, "Could not fetch"⟩
                          base_score := 0
                          limiting_tier := "tier0"
                          limiting_reason := "Connection refused" }
        fetch_time_ms := 123
        js_rendered := false } :=
  run_stage_health_fetch_error _ perfect_rest "Connection refused" rfl
    (by decide)

/-! ## C7 — the query generator's non-emptiness guarantee -/

/-- Python's `json.loads` restricted to the one input it is fed in the
counterexample below: the text `"[]"` is a valid JSON array and parses to the
empty list (any other text is irrelevant here and treated as a parse
failure). -/
def json_loads_empty_array : String → Option (List GeneratedQuery) :=
  fun s => if s = "[]" then some [] else none

/-- C7 counterexample: with `num_queries = 5 ≥ 1` and a provider that
succeeds with the response text `"[]"` — a valid JSON array, so neither a
provider failure, malformed JSON, nor an empty (falsy) response —
`generate_hyperniche_queries` returns the EMPTY list: `json.loads("[]")`
yields `[]`, `[][:5] = []`, and the fallback never runs.  The guarantee
"always returns a non-empty list" is therefore violated. -/
theorem generate_queries_empty_result_cex :
    generate_hyperniche_queries json_loads_empty_array "Acme" (some "SaaS")
      (some ["CRM"]) 5 (.returns true (some "[]")) = [] := by
  decide

/-- C7 (amended): for every `num_queries = N ≥ 1` and every provider
behaviour the generator is total and returns at most `N` queries; whenever
the provider call raises, or it returns without a truthy success-and-response
pair, or the fence-stripped response fails to parse as a JSON list, the
result is the deterministic fallback built from the literal profile fields,
which has exactly `min N 3` queries and is non-empty; and when the provider
succeeds and the response parses to a non-empty list the result is non-empty.
The result can only be empty when the provider returns a successfully parsed
empty JSON array. -/
theorem generate_queries_count_contract
    (parse_json : String → Option (List GeneratedQuery))
    (company_name : String) (industry : Option String)
    (products : Option (List String)) (N : Nat) (provider : ProviderResult)
    (hN : 1 ≤ N) :
    (generate_hyperniche_queries parse_json company_name industry products N
        provider).length ≤ N ∧
    (fallback_queries company_name industry products N).length = min N 3 ∧
    fallback_queries company_name industry products N ≠ [] ∧
    (∀ e, provider = .raises e →
      generate_hyperniche_queries parse_json company_name industry products N
          provider
        = fallback_queries company_name industry products N) ∧
    (∀ s r, provider = .returns s r →
      parse_json (stripCodeFences (r.getD "")) = none →
      generate_hyperniche_queries parse_json company_name industry products N
          provider
        = fallback_queries company_name industry products N) ∧
    (∀ r qs, provider = .returns true (some r) → r ≠ "" →
      parse_json (stripCodeFences r) = some qs → qs ≠ [] →
      generate_hyperniche_queries parse_json company_name industry products N
          provider ≠ []) := by
  have hfb_len : (fallback_queries company_name industry products N).length
      = min N 3 := by
    unfold fallback_queries
    rw [List.length_take]
    rfl
  have hfb_ne : fallback_queries company_name industry products N ≠ [] := by
    unfold fallback_queries
    match N, hN with
    | n + 1, _ => simp [List.take_succ_cons]
  refine ⟨?_, hfb_len, hfb_ne, ?_, ?_, ?_⟩
  · match provider with
    | .raises e =>
      rw [generate_hyperniche_queries, hfb_len]
      omega
    | .returns s r =>
      rw [generate_hyperniche_queries]
      by_cases hcond : (s && (r.getD "" != "")) = true
      · rw [if_pos hcond]
        match parse_json (stripCodeFences (r.getD "")) with
        | some qs => simp [List.length_take_le]
        | none =>
          rw [hfb_len]
          omega
      · rw [if_neg hcond, hfb_len]
        omega
  · intro e he
    rw [he, generate_hyperniche_queries]
  · intro s r hr hparse
    rw [hr, generate_hyperniche_queries]
    by_cases hcond : (s && (r.getD "" != "")) = true
    · rw [if_pos hcond, hparse]
    · rw [if_neg hcond]
  · intro r qs hr hrne hparse hqs
    rw [hr, generate_hyperniche_queries]
    have hcond : (true && ((some r).getD "" != "")) = true := by
      simpa using hrne
    rw [if_pos hcond]
    simp only [Option.getD_some]
    rw [hparse]
    simp only [ne_eq, List.take_eq_nil_iff]
    push_neg
    exact ⟨by omega, hqs⟩

/-- Witness for `generate_queries_count_contract` at a concrete instance:
provider raises, `num_queries = 2`. -/
theorem generate_queries_count_contract_witness :
    (generate_hyperniche_queries json_loads_empty_array "Acme" (some "SaaS")
        (some ["CRM"]) 2 (.raises "quota exceeded")).length ≤ 2 ∧
    (fallback_queries "Acme" (some "SaaS") (some ["CRM"]) 2).length
      = min 2 3 ∧
    fallback_queries "Acme" (some "SaaS") (some ["CRM"]) 2 ≠ [] :=
  ⟨(generate_queries_count_contract json_loads_empty_array "Acme"
      (some "SaaS") (some ["CRM"]) 2 (.raises "quota exceeded")
      (by decide)).1,
   (generate_queries_count_contract json_loads_empty_array "Acme"
      (some "SaaS") (some ["CRM"]) 2 (.raises "quota exceeded")
      (by decide)).2.1,
   (generate_queries_count_contract json_loads_empty_array "Acme"
      (some "SaaS") (some ["CRM"]) 2 (.raises "quota exceeded")
      (by decide)).2.2.1⟩

/-! ## C8 — the single-query probe contract -/

/-- The Mention Prober contract, written from the spec's words: on provider
success with non-empty text, `has_response = true`,
`company_mentioned = company_name.lower() in text.lower()`,
`response_length = len(text)`, `response_preview = text[:200]`; on provider
success with empty text or provider failure, `has_response = false` and
`company_mentioned = false`, with `error` populated exactly when an exception
occurred.  Compared against `test_query_with_gemini` below. -/
def probe_contract (query company_name : String) (provider : ProviderResult) :
    QueryResult :=
  match provider with
  | .raises e => ⟨query, "", false, false, 0, "", some e⟩
  | .returns _ none => ⟨query, "", false, false, 0, "", none⟩
  | .returns success (some text) =>
    if success = true ∧ text ≠ "" then
      ⟨query, "", true, pyIn (pyLower company_name) (pyLower text),
       pyLen text, pyTake text 200, none⟩
    else
      ⟨query, "", false, false, 0, "", none⟩

/-- C8: for every query, company name and provider behaviour, the probe
`test_query_with_gemini` is total (never propagates an exception) and
returns exactly the QueryResult demanded by the Mention Prober contract
`probe_contract`. -/
theorem probe_meets_contract (query company_name : String)
    (provider : ProviderResult) :
    test_query_with_gemini query company_name provider
      = probe_contract query company_name provider := by
  cases provider with
  | raises e => rfl
  | returns success response =>
    cases response with
    | none =>
      cases success <;> rfl
    | some text =>
      by_cases ht : text = ""
      · subst ht
        cases success <;> rfl
      · have hcond : (success && ((some text).getD "" != "")) = success := by
          simp [ht]
        cases success
        · rw [test_query_with_gemini, probe_contract]
          simp [ht]
        · rw [test_query_with_gemini, probe_contract]
          simp [ht]

/-! ## C9 — visibility aggregation formulas and bounds -/

/-- C9: for every list of probe results the aggregation of
`run_stage_mentions` computes the mention rate (the published `visibility`)
as mentions / total × 100 with non-responding queries still counted in the
denominator, the presence rate as responses / total × 100, and
`quality_score = min 10 (visibility / 10)`; consequently the visibility lies
in [0, 100] and the quality score in [0, 10] for any input, and the empty
list yields zeros rather than a division error. -/
theorem mentions_aggregation_bounds (results : List QueryResult) :
    (results ≠ [] → (mentions_metrics results).mention_rate
        = ((results.countP fun r => r.company_mentioned : Nat) : ℚ)
            / results.length * 100) ∧
    (results ≠ [] → (mentions_metrics results).presence_rate
        = ((results.countP fun r => r.has_response : Nat) : ℚ)
            / results.length * 100) ∧
    (mentions_metrics results).quality_score
        = min 10 ((mentions_metrics results).mention_rate / 10) ∧
    0 ≤ (mentions_metrics results).mention_rate ∧
    (mentions_metrics results).mention_rate ≤ 100 ∧
    0 ≤ (mentions_metrics results).quality_score ∧
    (mentions_metrics results).quality_score ≤ 10 ∧
    (mentions_metrics ([] : List QueryResult)).mention_rate = 0 ∧
    (mentions_metrics ([] : List QueryResult)).presence_rate = 0 ∧
    (mentions_metrics ([] : List QueryResult)).quality_score = 0 := by
  have hrate : ∀ (c : Nat), c ≤ results.length → results ≠ [] →
      0 ≤ (c : ℚ) / results.length * 100 ∧
      (c : ℚ) / results.length * 100 ≤ 100 := by
    intro c hc hne
    have hlen : 0 < (results.length : ℚ) := by
      have : 0 < results.length := List.length_pos.mpr hne
      exact_mod_cast this
    constructor
    · positivity
    · have h1 : (c : ℚ) / results.length ≤ 1 := by
        rw [div_le_one hlen]
        exact_mod_cast hc
      linarith
  by_cases hne : results = []
  · subst hne
    refine ⟨by simp, by simp, ?_, ?_, ?_, ?_, ?_, ?_, ?_, ?_⟩ <;>
      norm_num [mentions_metrics]
  · have hmr : (mentions_metrics results).mention_rate
        = ((results.countP fun r => r.company_mentioned : Nat) : ℚ)
            / results.length * 100 := by
      rw [mentions_metrics]
      simp [List.isEmpty_iff, hne]
    have hpr : (mentions_metrics results).presence_rate
        = ((results.countP fun r => r.has_response : Nat) : ℚ)
            / results.length * 100 := by
      rw [mentions_metrics]
      simp [List.isEmpty_iff, hne]
    have hq : (mentions_metrics results).quality_score
        = min 10 ((mentions_metrics results).mention_rate / 10) := by
      rw [mentions_metrics]
    have hbounds := hrate (results.countP fun r => r.company_mentioned)
      (List.countP_le_length _) hne
    have h0 : 0 ≤ (mentions_metrics results).mention_rate := by
      rw [hmr]; exact hbounds.1
    have h100 : (mentions_metrics results).mention_rate ≤ 100 := by
      rw [hmr]; exact hbounds.2
    refine ⟨fun _ => hmr, fun _ => hpr, hq, h0, h100, ?_, ?_, ?_, ?_, ?_⟩
    · rw [hq]
      have : (0 : ℚ) ≤ (mentions_metrics results).mention_rate / 10 := by
        linarith
      exact le_min (by norm_num) this
    · rw [hq]
      exact min_le_left _ _
    · norm_num [mentions_metrics]
    · norm_num [mentions_metrics]
    · norm_num [mentions_metrics]

/-- Witness for `mentions_aggregation_bounds` at a concrete two-element
result list (one mention, two responses). -/
theorem mentions_aggregation_bounds_witness :
    (mentions_metrics
      [{ query := "best CRM", has_response := true, company_mentioned := true },
       { query := "top tools", has_response := true }]).mention_rate = 50 ∧
    (mentions_metrics
      [{ query := "best CRM", has_response := true, company_mentioned := true },
       { query := "top tools", has_response := true }]).quality_score ≤ 10 := by
  constructor
  · have h := (mentions_aggregation_bounds
      [{ query := "best CRM", has_response := true, company_mentioned := true },
       { query := "top tools", has_response := true }]).1 (by simp)
    rw [h]
    have hc : List.countP (fun r => r.company_mentioned)
        [({ query := "best CRM", has_response := true,
            company_mentioned := true } : QueryResult),
         { query := "top tools", has_response := true }] = 1 := by decide
    rw [hc]
    norm_num
  · exact (mentions_aggregation_bounds
      [{ query := "best CRM", has_response := true, company_mentioned := true },
       { query := "top tools", has_response := true }]).2.2.2.2.2.2.1

/-! ## C10 — a mention implies a response, so visibility ≤ presence rate -/

/-- C10: every QueryResult the probe produces with
`company_mentioned = true` also has `has_response = true` (the mention test
only runs in the successful-response branch); consequently, in every
`MentionsStageOutput` built from probe results, `mentions` is at most the
number of responding queries and `visibility ≤ presence_rate`. -/
theorem mention_implies_response
    (parse_json : String → Option (List GeneratedQuery))
    (gen_provider : ProviderResult)
    (probe_provider : String → ProviderResult)
    (input_data : MentionsStageInput) :
    (∀ r ∈ (run_stage_mentions parse_json gen_provider probe_provider
        input_data).query_results,
      r.company_mentioned = true → r.has_response = true) ∧
    (run_stage_mentions parse_json gen_provider probe_provider
        input_data).mentions
      ≤ (run_stage_mentions parse_json gen_provider probe_provider
          input_data).query_results.countP (fun r => r.has_response) ∧
    (run_stage_mentions parse_json gen_provider probe_provider
        input_data).visibility
      ≤ (run_stage_mentions parse_json gen_provider probe_provider
          input_data).presence_rate := by
  have hpoint : ∀ q n p, (test_query_with_gemini q n p).company_mentioned
      = true → (test_query_with_gemini q n p).has_response = true := by
    intro q n p
    cases p with
    | raises e => simp [test_query_with_gemini]
    | returns s r =>
      by_cases h : (s && (r.getD "" != "")) = true
      · simp [test_query_with_gemini, h]
      · simp [test_query_with_gemini, h]
  have hmem : ∀ r ∈ (run_stage_mentions parse_json gen_provider probe_provider
      input_data).query_results,
      r.company_mentioned = true → r.has_response = true := by
    intro r hr
    rw [run_stage_mentions] at hr
    simp only [List.mem_map] at hr
    obtain ⟨q, _, hq⟩ := hr
    rw [← hq]
    exact hpoint _ _ _
  have hcount : (run_stage_mentions parse_json gen_provider probe_provider
        input_data).query_results.countP (fun r => r.company_mentioned)
      ≤ (run_stage_mentions parse_json gen_provider probe_provider
          input_data).query_results.countP (fun r => r.has_response) :=
    List.countP_mono_left hmem
  have hm : (run_stage_mentions parse_json gen_provider probe_provider
        input_data).mentions
      = (run_stage_mentions parse_json gen_provider probe_provider
          input_data).query_results.countP (fun r => r.company_mentioned) := by
    rw [run_stage_mentions, mentions_metrics]
  refine ⟨hmem, by rw [hm]; exact hcount, ?_⟩
  have hvis : (run_stage_mentions parse_json gen_provider probe_provider
        input_data).visibility
      = (mentions_metrics (run_stage_mentions parse_json gen_provider
          probe_provider input_data).query_results).mention_rate := by
    rw [run_stage_mentions]
  have hpres : (run_stage_mentions parse_json gen_provider probe_provider
        input_data).presence_rate
      = (mentions_metrics (run_stage_mentions parse_json gen_provider
          probe_provider input_data).query_results).presence_rate := by
    rw [run_stage_mentions]
  rw [hvis, hpres]
  set rs := (run_stage_mentions parse_json gen_provider probe_provider
    input_data).query_results with hrs
  have hcount' : rs.countP (fun r => r.company_mentioned)
      ≤ rs.countP (fun r => r.has_response) := List.countP_mono_left hmem
  simp only [mentions_metrics]
  by_cases hne : rs.isEmpty = true
  · simp [hne]
  · simp only [hne, Bool.not_false, if_true]
    have hlen : (0 : ℚ) < rs.length := by
      have h1 : rs ≠ [] := fun h => hne (by simp [h])
      have h2 : 0 < rs.length := List.length_pos.mpr h1
      exact_mod_cast h2
    have hcast : ((rs.countP fun r => r.company_mentioned : Nat) : ℚ)
        ≤ ((rs.countP fun r => r.has_response : Nat) : ℚ) := by
      exact_mod_cast hcount'
    gcongr

/-- Witness for `mention_implies_response` at a concrete instance: the
generation call raises (so the fallback queries are probed) and every probe
responds with text mentioning the company. -/
theorem mention_implies_response_witness :
    (run_stage_mentions (fun _ => none) (.raises "quota")
        (fun _ => .returns true (some "Acme leads this market"))
        { company_name := "Acme", industry := some "SaaS",
          products := some ["CRM"], num_queries := 3 }).visibility
      ≤ (run_stage_mentions (fun _ => none) (.raises "quota")
          (fun _ => .returns true (some "Acme leads this market"))
          { company_name := "Acme", industry := some "SaaS",
            products := some ["CRM"], num_queries := 3 }).presence_rate :=
  (mention_implies_response (fun _ => none) (.raises "quota")
    (fun _ => .returns true (some "Acme leads this market"))
    { company_name := "Acme", industry := some "SaaS",
      products := some ["CRM"], num_queries := 3 }).2.2

/-! ## C5 — monotonicity of the final score under a check flipping to passed -/

/-- The same check dict with `passed` replaced by `True` — the "previously
failing check now passes" replacement of the monotonicity property. -/
def set_passed_true (c : Check) : Check := { c with passed := some true }

/-- An `any` over a list with one element replaced is preserved when the
predicate can only gain on the replacement. -/
theorem any_flip_le (p : Check → Bool) (pre post : List Check)
    (c c' : Check) (h : p c = true → p c' = true) :
    (pre ++ c :: post).any p = true → (pre ++ c' :: post).any p = true := by
  simp only [List.any_append, List.any_cons, Bool.or_eq_true]
  rintro (h1 | h2 | h3)
  · exact Or.inl h1
  · exact Or.inr (Or.inl (h h2))
  · exact Or.inr (Or.inr h3)

/-- With no noindex condition, the tier-0 cap only rises as the
blocked-crawler count falls. -/
theorem tier0_cap_antitone {m n : Nat} (hmn : m ≤ n) :
    (tier0_of_flags n false).2.1 ≤ (tier0_of_flags m false).2.1 := by
  unfold tier0_of_flags
  split_ifs <;> simp_all <;> omega

/-- The tier-1 cap is monotone in the `has_https` flag (the only tier-1 flag
that reads `passed`). -/
theorem tier1_cap_mono (org title : Bool) {h1 h2 : Bool}
    (hh : h1 = true → h2 = true) :
    (tier1_of_flags org title h1).2.1 ≤ (tier1_of_flags org title h2).2.1 := by
  cases org <;> cases title <;> cases h1 <;> cases h2 <;>
    simp_all [tier1_of_flags]

/-- The tier-2 cap is monotone in the `good_content` and `has_sameas` flags
(the only tier-2 flags that read `passed`). -/
theorem tier2_cap_mono (op oc hm : Bool) {g1 g2 s1 s2 : Bool}
    (hg : g1 = true → g2 = true) (hs : s1 = true → s2 = true) :
    (tier2_of_flags op oc hm g1 s1).2.1
      ≤ (tier2_of_flags op oc hm g2 s2).2.1 := by
  cases op <;> cases oc <;> cases hm <;> cases g1 <;> cases g2 <;>
    cases s1 <;> cases s2 <;> simp_all [tier2_of_flags]

theorem check_impact_nonneg (c : Check) : 0 ≤ check_impact c := by
  unfold check_impact
  exact_mod_cast Nat.zero_le _

/-- Flipping a failing check to passed cannot lose base-score credit (partial
credit is at most 0.7 of a nonnegative impact). -/
theorem earned_impact_flip_le (c : Check)
    (hfail : c.passed.getD false = false) :
    earned_impact_of c ≤ earned_impact_of (set_passed_true c) := by
  have hnn := check_impact_nonneg c
  have hnew : earned_impact_of (set_passed_true c) = check_impact c := by
    rw [earned_impact_of]
    simp [set_passed_true]
    rfl
  rw [hnew, earned_impact_of, hfail]
  split_ifs <;> linarith

/-- Flipping a failing check to passed cannot decrease the base score. -/
theorem base_score_flip_le (pre post : List Check) (c : Check)
    (hfail : c.passed.getD false = false) :
    calculate_base_score (pre ++ c :: post)
      ≤ calculate_base_score (pre ++ set_passed_true c :: post) := by
  have htot : ((pre ++ set_passed_true c :: post).map check_impact).sum
      = ((pre ++ c :: post).map check_impact).sum := by
    simp only [List.map_append, List.map_cons, List.sum_append, List.sum_cons]
    rfl
  have hsum : ((pre ++ c :: post).map earned_impact_of).sum
      ≤ ((pre ++ set_passed_true c :: post).map earned_impact_of).sum := by
    simp only [List.map_append, List.map_cons, List.sum_append, List.sum_cons]
    have := earned_impact_flip_le c hfail
    linarith
  rw [calculate_base_score, calculate_base_score, htot]
  by_cases hT : 0 < ((pre ++ c :: post).map check_impact).sum
  · simp only [hT, if_true]
    gcongr
  · simp only [hT, if_false]
    exact le_refl 0

/-- C5 counterexample: the claim fails as stated.  Take three failing crawler
checks, a failing `robots_meta` check whose message contains "noindex", and
otherwise-perfect checks.  With `gptbot_access` failing, tier 0 counts 3
blocked crawlers and caps at 25 (never reaching the noindex branch); the
final score is 25.  Replacing that one failing `gptbot_access` check by the
same check with `passed = True` drops the blocked count to 2, so tier 0 now
reaches the noindex branch and caps at 5: the final score FALLS from 25 to 5
when a previously-failing check passes. -/
theorem final_score_not_monotone_cex :
    (calculate_tiered_score (failing_check "gptbot_access" ::
      (failing_check "claude_access" :: failing_check "perplexitybot_access"
        :: noindex_fail_check :: perfect_rest))).1 = 25 ∧
    (calculate_tiered_score (set_passed_true (failing_check "gptbot_access") ::
      (failing_check "claude_access" :: failing_check "perplexitybot_access"
        :: noindex_fail_check :: perfect_rest))).1 = 5 := by
  constructor
  · have h0 : (evaluate_tier0_critical (failing_check "gptbot_access" ::
        (failing_check "claude_access" :: failing_check "perplexitybot_access"
          :: noindex_fail_check :: perfect_rest))).2.1 = 25 := by decide
    have h1 : (evaluate_tier1_essential (failing_check "gptbot_access" ::
        (failing_check "claude_access" :: failing_check "perplexitybot_access"
          :: noindex_fail_check :: perfect_rest))).2.1 = 100 := by decide
    have h2 : (evaluate_tier2_important (failing_check "gptbot_access" ::
        (failing_check "claude_access" :: failing_check "perplexitybot_access"
          :: noindex_fail_check :: perfect_rest))).2.1 = 100 := by decide
    have hb : calculate_base_score (failing_check "gptbot_access" ::
        (failing_check "claude_access" :: failing_check "perplexitybot_access"
          :: noindex_fail_check :: perfect_rest)) = 700 / 11 := by
      simp +decide only [calculate_base_score, check_impact, earned_impact_of,
        perfect_rest, failing_check, passing_check, noindex_fail_check,
        List.map_cons, List.map_nil, List.sum_cons, List.sum_nil,
        Option.getD_some]
      norm_num
    simp only [calculate_tiered_score]
    rw [h0, h1, h2, hb, show min (min (min ((25 : Int) : ℚ) ((100 : Int) : ℚ))
      ((100 : Int) : ℚ)) ((700 : ℚ) / 11) = ((25 : Int) : ℚ) by norm_num]
    exact_mod_cast pyRound1_intCast 25
  · have h0 : (evaluate_tier0_critical
        (set_passed_true (failing_check "gptbot_access") ::
        (failing_check "claude_access" :: failing_check "perplexitybot_access"
          :: noindex_fail_check :: perfect_rest))).2.1 = 5 := by decide
    have h1 : (evaluate_tier1_essential
        (set_passed_true (failing_check "gptbot_access") ::
        (failing_check "claude_access" :: failing_check "perplexitybot_access"
          :: noindex_fail_check :: perfect_rest))).2.1 = 100 := by decide
    have h2 : (evaluate_tier2_important
        (set_passed_true (failing_check "gptbot_access") ::
        (failing_check "claude_access" :: failing_check "perplexitybot_access"
          :: noindex_fail_check :: perfect_rest))).2.1 = 100 := by decide
    have hb : calculate_base_score
        (set_passed_true (failing_check "gptbot_access") ::
        (failing_check "claude_access" :: failing_check "perplexitybot_access"
          :: noindex_fail_check :: perfect_rest)) = 800 / 11 := by
      simp +decide only [calculate_base_score, check_impact, earned_impact_of,
        perfect_rest, failing_check, passing_check, noindex_fail_check,
        set_passed_true, List.map_cons, List.map_nil, List.sum_cons,
        List.sum_nil, Option.getD_some]
      norm_num
    simp only [calculate_tiered_score]
    rw [h0, h1, h2, hb, show min (min (min ((5 : Int) : ℚ) ((100 : Int) : ℚ))
      ((100 : Int) : ℚ)) ((800 : ℚ) / 11) = ((5 : Int) : ℚ) by norm_num]
    exact_mod_cast pyRound1_intCast 5

/-- C5 (amended): for any fixed list of checks that contains no failing
robots-meta check whose message contains "noindex", replacing one
previously-failing check by the same check with `passed = True` never
decreases the final score: the base score cannot drop and no tier cap can
become lower.  (Without the no-noindex proviso the property fails — see the
counterexample — because lowering the blocked-crawler count from 3 can expose
the stricter noindex cap 5.) -/
theorem final_score_monotone_flip (pre post : List Check) (c : Check)
    (hfail : c.passed.getD false = false)
    (hnoidx : ∀ i ∈ pre ++ c :: post, isNoindexFail i = false) :
    (calculate_tiered_score (pre ++ c :: post)).1
      ≤ (calculate_tiered_score (pre ++ set_passed_true c :: post)).1 := by
  have hbc : blocked_crawlers (pre ++ set_passed_true c :: post)
      ≤ blocked_crawlers (pre ++ c :: post) := by
    have hc' : ¬(isBlockedCrawler (set_passed_true c) = true) := by
      simp [isBlockedCrawler, set_passed_true]
    rw [blocked_crawlers, blocked_crawlers, List.countP_append,
      List.countP_append, List.countP_cons_of_neg _ _ hc']
    by_cases hcc : isBlockedCrawler c = true
    · rw [List.countP_cons_of_pos _ _ hcc]
      omega
    · rw [List.countP_cons_of_neg _ _ hcc]
  have hnoidx_old : (pre ++ c :: post).any isNoindexFail = false := by
    rw [List.any_eq_false]
    intro i hi
    simp [hnoidx i hi]
  have hnoidx_new :
      (pre ++ set_passed_true c :: post).any isNoindexFail = false := by
    rw [List.any_eq_false]
    intro i hi
    rcases List.mem_append.mp hi with h | h
    · simp [hnoidx i (List.mem_append_left _ h)]
    · rcases List.mem_cons.mp h with rfl | h
      · simp [isNoindexFail, set_passed_true]
      · simp [hnoidx i (List.mem_append_right _ (List.mem_cons_of_mem _ h))]
  have ht0 : (evaluate_tier0_critical (pre ++ c :: post)).2.1
      ≤ (evaluate_tier0_critical (pre ++ set_passed_true c :: post)).2.1 := by
    rw [evaluate_tier0_critical, evaluate_tier0_critical, hnoidx_old,
      hnoidx_new]
    exact tier0_cap_antitone hbc
  have horg : t1_has_org_schema (pre ++ set_passed_true c :: post)
      = t1_has_org_schema (pre ++ c :: post) := by
    simp only [t1_has_org_schema, List.any_append, List.any_cons]
    rfl
  have htitle : t1_has_title (pre ++ set_passed_true c :: post)
      = t1_has_title (pre ++ c :: post) := by
    simp only [t1_has_title, List.any_append, List.any_cons]
    rfl
  have hhttps : t1_has_https (pre ++ c :: post) = true →
      t1_has_https (pre ++ set_passed_true c :: post) = true := by
    unfold t1_has_https
    refine any_flip_le _ pre post c (set_passed_true c) ?_
    intro hpc
    rw [Bool.and_eq_true, hfail] at hpc
    exact absurd hpc.2 Bool.false_ne_true
  have ht1 : (evaluate_tier1_essential (pre ++ c :: post)).2.1
      ≤ (evaluate_tier1_essential (pre ++ set_passed_true c :: post)).2.1 := by
    rw [evaluate_tier1_essential, evaluate_tier1_essential, horg, htitle]
    exact tier1_cap_mono _ _ hhttps
  have horg2 : t2_org_present (pre ++ set_passed_true c :: post)
      = t2_org_present (pre ++ c :: post) := by
    simp only [t2_org_present, List.any_append, List.any_cons]
    rfl
  have hoc2 : t2_org_complete (pre ++ set_passed_true c :: post)
      = t2_org_complete (pre ++ c :: post) := by
    simp only [t2_org_complete, List.any_append, List.any_cons]
    rfl
  have hmeta2 : t2_has_meta_desc (pre ++ set_passed_true c :: post)
      = t2_has_meta_desc (pre ++ c :: post) := by
    simp only [t2_has_meta_desc, List.any_append, List.any_cons]
    rfl
  have hgood2 : t2_good_content (pre ++ c :: post) = true →
      t2_good_content (pre ++ set_passed_true c :: post) = true := by
    unfold t2_good_content
    refine any_flip_le _ pre post c (set_passed_true c) ?_
    intro hpc
    rw [Bool.and_eq_true, hfail] at hpc
    exact absurd hpc.2 Bool.false_ne_true
  have hsame2 : t2_has_sameas (pre ++ c :: post) = true →
      t2_has_sameas (pre ++ set_passed_true c :: post) = true := by
    unfold t2_has_sameas
    refine any_flip_le _ pre post c (set_passed_true c) ?_
    intro hpc
    rw [Bool.and_eq_true, hfail] at hpc
    exact absurd hpc.2 Bool.false_ne_true
  have ht2 : (evaluate_tier2_important (pre ++ c :: post)).2.1
      ≤ (evaluate_tier2_important (pre ++ set_passed_true c :: post)).2.1 := by
    rw [evaluate_tier2_important, evaluate_tier2_important, horg2, hoc2,
      hmeta2]
    exact tier2_cap_mono _ _ _ hgood2 hsame2
  have hb := base_score_flip_le pre post c hfail
  simp only [calculate_tiered_score]
  apply pyRound1_mono
  refine min_le_min (min_le_min (min_le_min ?_ ?_) ?_) hb
  · exact_mod_cast ht0
  · exact_mod_cast ht1
  · exact_mod_cast ht2

/-- Witness for `final_score_monotone_flip`: flipping a lone failing `https`
check. -/
theorem final_score_monotone_flip_witness :
    (calculate_tiered_score [failing_check "https"]).1
      ≤ (calculate_tiered_score [set_passed_true (failing_check "https")]).1 :=
  final_score_monotone_flip [] [] (failing_check "https") (by decide)
    (by decide)

end OpenAnalytics
